import Mathlib

/-!
Verification of the pagination and transition engine of the
pretty-pdf-viewer repository.

The definitions below are a shallow embedding of the TypeScript source:

* `getSpreadForPage` embeds `BookLayout.getSpreadForPage`
  (src/layout/BookLayout.ts).
* `renderSpread`, `renderCurrentSpreadNav`, `goToPage`, `nextPage`,
  `previousPage`, `load`, `setZoom`, `zoomIn`, `zoomOut` embed the
  corresponding members of `PrettyPDFViewer` (src/PrettyPDFViewer.ts).
* `renderPage` embeds `PageRenderer.renderPage`
  (src/renderer/PageRenderer.ts).

Page numbers are modelled as `Int` (JavaScript numbers restricted to the
integral values the engine manipulates) and zoom levels as `ℚ`.  The
external collaborators (pdf.js page provider, rasterizer, animation
driver) are modelled by explicit success parameters, following the
contracts of the specification: the page provider rejects out-of-range
page requests, rasterization may fail per page, the animation driver may
reject.
-/

namespace PrettyPDF

/-- The JavaScript % operator on integers: remainder truncated toward
zero, which is Int.tmod. -/
def jsMod (a b : Int) : Int := Int.tmod a b

/-- A spread of left/right page slots, as in BookLayout.currentSpread:
page number or null on each side. -/
structure Spread where
  left : Option Int
  right : Option Int
deriving DecidableEq, Repr

/-- Embedding of BookLayout.getSpreadForPage(page, totalPages): page 1
maps to the pair (1, 2); the last page of an odd-count document maps to
(totalPages, null); otherwise an even page maps to (page, page+1) and an
odd page to (page-1, page). -/
def getSpreadForPage (page totalPages : Int) : Spread :=
  if page = 1 then ⟨some 1, some 2⟩
  else if page = totalPages ∧ jsMod totalPages 2 = 1 then ⟨some totalPages, none⟩
  else if jsMod page 2 = 0 then ⟨some page, some (page + 1)⟩
  else ⟨some (page - 1), some page⟩

/-- The spread stored by PrettyPDFViewer.renderCurrentSpread via
BookLayout.updateCurrentSpread: page 1 displays as (1, null); the last
page of an odd-count document as (totalPages, null); otherwise an even
page as (page, page+1) and an odd page as (page-1, page).  Note the
right number is stored even when it exceeds totalPages (only the canvas
is suppressed then). -/
def renderSpread (currentPage totalPages : Int) : Spread :=
  if currentPage = 1 then ⟨some 1, none⟩
  else if jsMod totalPages 2 = 1 ∧ currentPage = totalPages then ⟨some totalPages, none⟩
  else if jsMod currentPage 2 = 0 then ⟨some currentPage, some (currentPage + 1)⟩
  else ⟨some (currentPage - 1), some currentPage⟩

/-- A slot of a spread is absent or holds a page within [1, totalPages].
Stated from the words of the specification, to be compared with
getSpreadForPage. -/
def slotInRange (slot : Option Int) (totalPages : Int) : Prop :=
  match slot with
  | none => True
  | some n => 1 ≤ n ∧ n ≤ totalPages

instance (slot : Option Int) (totalPages : Int) : Decidable (slotInRange slot totalPages) :=
  match slot with
  | none => isTrue trivial
  | some n => inferInstanceAs (Decidable (1 ≤ n ∧ n ≤ totalPages))

/-- When both slots of a spread are present, left + 1 = right and left is
even.  Stated from the words of the specification. -/
def slotsLinked (sp : Spread) : Prop :=
  match sp.left, sp.right with
  | some l, some r => l + 1 = r ∧ l % 2 = 0
  | _, _ => True

instance (sp : Spread) : Decidable (slotsLinked sp) :=
  match h : sp.left, h2 : sp.right with
  | some l, some r => by unfold slotsLinked; rw [h, h2]; infer_instance
  | none, _ => by unfold slotsLinked; rw [h]; exact isTrue trivial
  | some _, none => by unfold slotsLinked; rw [h, h2]; exact isTrue trivial

/-- The spread invariant claimed by the specification: present slots in
range, and when both are present, left + 1 = right with left even. -/
def specSpreadInvariant (sp : Spread) (totalPages : Int) : Prop :=
  slotInRange sp.left totalPages ∧ slotInRange sp.right totalPages ∧ slotsLinked sp

instance (sp : Spread) (totalPages : Int) : Decidable (specSpreadInvariant sp totalPages) :=
  inferInstanceAs (Decidable (_ ∧ _ ∧ _))

/-- Truncated and Euclidean remainders agree on the nonnegative page
numbers the engine manipulates. -/
theorem jsMod_two_eq_emod (a : Int) (h : 0 ≤ a) : jsMod a 2 = a % 2 :=
  Int.tmod_eq_emod h (by omega)


/-- Configuration options of PrettyPDFViewer relevant to the engine:
initialPage (default 1), initialZoom (default 1.0), useThreeJS
(default true). -/
structure ViewerOptions where
  initialPage : Int
  initialZoom : ℚ
  useThreeJS : Bool
deriving DecidableEq, Repr

/-- The mutable fields of PrettyPDFViewer read by the engine claims:
whether pdfDoc is non-null, currentPage, totalPages, currentZoom,
isAnimating, the spread stored by BookLayout.updateCurrentSpread, the
set of page numbers held in pageCache (insertion order), and the list of
onPageChange(page, totalPages) notifications fired so far. -/
structure ViewerState where
  pdfLoaded : Bool
  currentPage : Int
  totalPages : Int
  currentZoom : ℚ
  isAnimating : Bool
  displayedSpread : Spread
  cache : List Int
  events : List (Int × Int)
deriving DecidableEq, Repr

/-- Initial field values of PrettyPDFViewer (constructor): pdfDoc null,
currentPage 1, totalPages 0, currentZoom 1.0, isAnimating false, and
BookLayout.currentSpread (null, null), empty cache, no notifications. -/
def initState : ViewerState :=
  { pdfLoaded := false, currentPage := 1, totalPages := 0, currentZoom := 1,
    isAnimating := false, displayedSpread := ⟨none, none⟩, cache := [], events := [] }

/-- Embedding of PrettyPDFViewer.getOrRenderPage(pageNumber): a cache
hit returns at once; on a miss it throws when pdfDoc is null, otherwise
asks pdf.js for the page and rasterizes it.  The external pdf.js
provider and rasterizer are modelled by the success predicate pageOk
(per the spec contracts, getPage rejects out-of-range requests and
rasterization of a page may fail).  Returns the updated cache and
whether the call resolved. -/
def getOrRenderPage (pageOk : Int → Bool) (pdfLoaded : Bool) (cache : List Int)
    (n : Int) : List Int × Bool :=
  if n ∈ cache then (cache, true)
  else if pdfLoaded = true ∧ pageOk n = true then (cache ++ [n], true)
  else (cache, false)

/-- One slot fetch in the animated branch of goToPage:
spread.left / spread.right are tested for JavaScript truthiness (null or
0 is falsy and yields an empty canvas without a fetch), otherwise
getOrRenderPage runs. -/
def fetchSlot (pageOk : Int → Bool) (pdfLoaded : Bool) (cache : List Int)
    (slot : Option Int) : List Int × Bool :=
  match slot with
  | none => (cache, true)
  | some n => if n = 0 then (cache, true) else getOrRenderPage pageOk pdfLoaded cache n

/-- Embedding of PrettyPDFViewer.renderCurrentSpread: no-op when pdfDoc
is null; otherwise fetches the pages of the spread of currentPage
(suppressing a right page beyond totalPages), stores the spread via
updateCurrentSpread and fires onPageChange(currentPage, totalPages).
Returns the updated state and whether the call resolved; on a fetch
failure the error propagates before the spread or notification updates
happen. -/
def renderCurrentSpreadNav (pageOk : Int → Bool) (s : ViewerState) : ViewerState × Bool :=
  if s.pdfLoaded = false then (s, true)
  else if s.currentPage = 1 then
    let r := getOrRenderPage pageOk s.pdfLoaded s.cache 1
    if r.2 = false then ({ s with cache := r.1 }, false)
    else ({ s with
              cache := r.1,
              displayedSpread := ⟨some 1, none⟩,
              events := s.events ++ [(s.currentPage, s.totalPages)] }, true)
  else if jsMod s.totalPages 2 = 1 ∧ s.currentPage = s.totalPages then
    let r := getOrRenderPage pageOk s.pdfLoaded s.cache s.totalPages
    if r.2 = false then ({ s with cache := r.1 }, false)
    else ({ s with
              cache := r.1,
              displayedSpread := ⟨some s.totalPages, none⟩,
              events := s.events ++ [(s.currentPage, s.totalPages)] }, true)
  else
    let left := if jsMod s.currentPage 2 = 0 then s.currentPage else s.currentPage - 1
    let right := if jsMod s.currentPage 2 = 0 then s.currentPage + 1 else s.currentPage
    let r1 := getOrRenderPage pageOk s.pdfLoaded s.cache left
    if r1.2 = false then ({ s with cache := r1.1 }, false)
    else
      let r2 := if right ≤ s.totalPages then getOrRenderPage pageOk s.pdfLoaded r1.1 right
                else (r1.1, true)
      if r2.2 = false then ({ s with cache := r2.1 }, false)
      else ({ s with
                cache := r2.1,
                displayedSpread := ⟨some left, some right⟩,
                events := s.events ++ [(s.currentPage, s.totalPages)] }, true)

/-- The catch/finally tail of the animated branch of goToPage: restore
currentPage to its pre-transition value, re-render that spread (the
error itself is logged, not rethrown), and clear isAnimating.  The
returned flag is false only when the rollback re-render itself throws
(that error does escape the catch). -/
def rollbackCatch (pageOk : Int → Bool) (s : ViewerState) (oldPage : Int) :
    ViewerState × Bool :=
  let r := renderCurrentSpreadNav pageOk { s with currentPage := oldPage }
  ({ r.1 with isAnimating := false }, r.2)

/-- Embedding of PrettyPDFViewer.goToPage(page, animate): no-op when
page is out of [1, totalPages], equals currentPage, or isAnimating;
without animation (or without Three.js) it sets currentPage and renders;
otherwise it sets isAnimating, fetches the four spread canvases (current
spread from BookLayout.getCurrentSpread, target from getSpreadForPage),
runs the flip (modelled by the animOk flag; the forward/backward choice
does not affect engine state), commits currentPage and re-renders on
success, and rolls back on any failure.  The returned flag records
whether the promise resolved. -/
def goToPage (pageOk : Int → Bool) (s : ViewerState) (page : Int)
    (animate useThreeJS animOk : Bool) : ViewerState × Bool :=
  if page < 1 ∨ s.totalPages < page ∨ page = s.currentPage ∨ s.isAnimating = true then
    (s, true)
  else if animate = false ∨ useThreeJS = false then
    renderCurrentSpreadNav pageOk { s with currentPage := page }
  else
    let oldPage := s.currentPage
    let s0 := { s with isAnimating := true }
    let cur := s0.displayedSpread
    let tgt := getSpreadForPage page s0.totalPages
    let r1 := fetchSlot pageOk s0.pdfLoaded s0.cache cur.left
    if r1.2 = false then rollbackCatch pageOk { s0 with cache := r1.1 } oldPage
    else
      let r2 := fetchSlot pageOk s0.pdfLoaded r1.1 cur.right
      if r2.2 = false then rollbackCatch pageOk { s0 with cache := r2.1 } oldPage
      else
        let r3 := fetchSlot pageOk s0.pdfLoaded r2.1 tgt.left
        if r3.2 = false then rollbackCatch pageOk { s0 with cache := r3.1 } oldPage
        else
          let r4 := fetchSlot pageOk s0.pdfLoaded r3.1 tgt.right
          if r4.2 = false then rollbackCatch pageOk { s0 with cache := r4.1 } oldPage
          else if animOk = false then rollbackCatch pageOk { s0 with cache := r4.1 } oldPage
          else
            let r5 := renderCurrentSpreadNav pageOk { s0 with cache := r4.1, currentPage := page }
            if r5.2 = false then rollbackCatch pageOk r5.1 oldPage
            else ({ r5.1 with isAnimating := false }, true)

/-- The next-page target arithmetic of PrettyPDFViewer.nextPage: from
page 1 the target is 2; from an even page, page + 2; from an odd page,
page + 1. -/
def nextTarget (p : Int) : Int :=
  if p = 1 then 2 else if jsMod p 2 = 0 then p + 2 else p + 1

/-- The previous-page target arithmetic of PrettyPDFViewer.previousPage:
from page 2 or 3 the target is 1; from an even page, page - 2; from an
odd page, page - 3. -/
def prevTarget (p : Int) : Int :=
  if p = 2 ∨ p = 3 then 1 else if jsMod p 2 = 0 then p - 2 else p - 3

/-- Embedding of PrettyPDFViewer.nextPage: no-op at or beyond the last
page; otherwise computes the target and calls goToPage(target, true)
when the target does not exceed totalPages. -/
def nextPage (pageOk : Int → Bool) (s : ViewerState) (useThreeJS animOk : Bool) :
    ViewerState × Bool :=
  if s.totalPages ≤ s.currentPage then (s, true)
  else if nextTarget s.currentPage ≤ s.totalPages then
    goToPage pageOk s (nextTarget s.currentPage) true useThreeJS animOk
  else (s, true)

/-- Embedding of PrettyPDFViewer.previousPage: no-op at or before the
first page; otherwise computes the target and calls goToPage(target,
true) when the target is at least 1. -/
def previousPage (pageOk : Int → Bool) (s : ViewerState) (useThreeJS animOk : Bool) :
    ViewerState × Bool :=
  if s.currentPage ≤ 1 then (s, true)
  else if 1 ≤ prevTarget s.currentPage then
    goToPage pageOk s (prevTarget s.currentPage) true useThreeJS animOk
  else (s, true)

/-- Embedding of PrettyPDFViewer.load(source): parsing (the external
loader, modelled by parseOk and the parsed page count) either rejects
with no state change, or sets pdfDoc, totalPages and
currentPage := options.initialPage (unclamped, and without touching
currentZoom or the cache) and renders the initial spread; a render
failure is reported to onError and rethrown, after those assignments. -/
def load (pageOk : Int → Bool) (parseOk : Bool) (docTotalPages : Int)
    (opts : ViewerOptions) (s : ViewerState) : ViewerState × Bool :=
  if parseOk = false then (s, false)
  else renderCurrentSpreadNav pageOk
    { s with
        pdfLoaded := true,
        totalPages := docTotalPages,
        currentPage := opts.initialPage }

/-- Embedding of PrettyPDFViewer.setZoom(level): clamp to [0.5, 3.0] and
store. -/
def setZoom (s : ViewerState) (level : ℚ) : ViewerState :=
  { s with currentZoom := max (1/2) (min 3 level) }

/-- Embedding of PrettyPDFViewer.zoomIn: setZoom(min(currentZoom + 0.2,
3.0)). -/
def zoomIn (s : ViewerState) : ViewerState :=
  setZoom s (min (s.currentZoom + 1/5) 3)

/-- Embedding of PrettyPDFViewer.zoomOut: setZoom(max(currentZoom - 0.2,
0.5)). -/
def zoomOut (s : ViewerState) : ViewerState :=
  setZoom s (max (s.currentZoom - 1/5) (1/2))


/-- A page fetch resolves whenever the document is loaded and the
collaborators succeed on that page. -/
theorem getOrRenderPage_succeeds (pageOk : Int → Bool) (cache : List Int) (n : Int)
    (h : pageOk n = true) :
    (getOrRenderPage pageOk true cache n).2 = true := by
  unfold getOrRenderPage
  split_ifs with h1 h2
  · rfl
  · rfl
  · exact absurd ⟨rfl, h⟩ h2

/-- renderCurrentSpread never changes currentPage. -/
theorem renderSpreadNav_currentPage (pageOk : Int → Bool) (s : ViewerState) :
    (renderCurrentSpreadNav pageOk s).1.currentPage = s.currentPage := by
  simp only [renderCurrentSpreadNav]
  split_ifs <;> rfl

/-- renderCurrentSpread never changes totalPages. -/
theorem renderSpreadNav_totalPages (pageOk : Int → Bool) (s : ViewerState) :
    (renderCurrentSpreadNav pageOk s).1.totalPages = s.totalPages := by
  simp only [renderCurrentSpreadNav]
  split_ifs <;> rfl

/-- renderCurrentSpread never changes currentZoom. -/
theorem renderSpreadNav_currentZoom (pageOk : Int → Bool) (s : ViewerState) :
    (renderCurrentSpreadNav pageOk s).1.currentZoom = s.currentZoom := by
  simp only [renderCurrentSpreadNav]
  split_ifs <;> rfl

/-- renderCurrentSpread never changes isAnimating. -/
theorem renderSpreadNav_isAnimating (pageOk : Int → Bool) (s : ViewerState) :
    (renderCurrentSpreadNav pageOk s).1.isAnimating = s.isAnimating := by
  simp only [renderCurrentSpreadNav]
  split_ifs <;> rfl

/-- With the document loaded, currentPage within range and the
collaborators succeeding on every in-range page, renderCurrentSpread
resolves: it stores the spread of currentPage and fires exactly one
onPageChange notification, leaving the other fields unchanged. -/
theorem renderSpreadNav_ok (pageOk : Int → Bool) (s : ViewerState)
    (hL : s.pdfLoaded = true) (h1 : 1 ≤ s.currentPage) (h2 : s.currentPage ≤ s.totalPages)
    (hok : ∀ n, 1 ≤ n → n ≤ s.totalPages → pageOk n = true) :
    ∃ c, renderCurrentSpreadNav pageOk s =
      ({ s with
          cache := c,
          displayedSpread := renderSpread s.currentPage s.totalPages,
          events := s.events ++ [(s.currentPage, s.totalPages)] }, true) := by
  simp only [renderCurrentSpreadNav, renderSpread, hL]
  rw [if_neg (by simp)]
  by_cases hc1 : s.currentPage = 1
  · rw [if_pos hc1, if_pos hc1]
    have hg := getOrRenderPage_succeeds pageOk s.cache 1 (hok 1 (by omega) (by omega))
    rw [if_neg (by simp [hg])]
    exact ⟨_, rfl⟩
  · rw [if_neg hc1, if_neg hc1]
    by_cases hc2 : jsMod s.totalPages 2 = 1 ∧ s.currentPage = s.totalPages
    · rw [if_pos hc2, if_pos hc2]
      have hg := getOrRenderPage_succeeds pageOk s.cache s.totalPages
        (hok s.totalPages (by omega) (by omega))
      rw [if_neg (by simp [hg])]
      exact ⟨_, rfl⟩
    · rw [if_neg hc2, if_neg hc2]
      by_cases hpar : jsMod s.currentPage 2 = 0
      · rw [if_pos hpar, if_pos hpar, if_pos hpar]
        have hgl := getOrRenderPage_succeeds pageOk s.cache s.currentPage (hok _ h1 h2)
        rw [if_neg (by simp [hgl])]
        by_cases hrt : s.currentPage + 1 ≤ s.totalPages
        · rw [if_pos hrt]
          have hgr := getOrRenderPage_succeeds pageOk
            (getOrRenderPage pageOk true s.cache s.currentPage).1 (s.currentPage + 1)
            (hok _ (by omega) hrt)
          rw [if_neg (by simp [hgr])]
          exact ⟨_, rfl⟩
        · rw [if_neg hrt]
          rw [if_neg (by simp)]
          exact ⟨_, rfl⟩
      · rw [if_neg hpar, if_neg hpar, if_neg hpar]
        have hgl := getOrRenderPage_succeeds pageOk s.cache (s.currentPage - 1)
          (hok _ (by omega) (by omega))
        rw [if_neg (by simp [hgl])]
        rw [if_pos h2]
        have hgr := getOrRenderPage_succeeds pageOk
          (getOrRenderPage pageOk true s.cache (s.currentPage - 1)).1 s.currentPage
          (hok _ h1 h2)
        rw [if_neg (by simp [hgr])]
        exact ⟨_, rfl⟩

/-- The rollback tail restores currentPage to the pre-transition page. -/
theorem rollbackCatch_currentPage (pageOk : Int → Bool) (s : ViewerState) (old : Int) :
    (rollbackCatch pageOk s old).1.currentPage = old := by
  have h := renderSpreadNav_currentPage pageOk { s with currentPage := old }
  simpa [rollbackCatch] using h

/-- The rollback tail always clears isAnimating. -/
theorem rollbackCatch_isAnimating (pageOk : Int → Bool) (s : ViewerState) (old : Int) :
    (rollbackCatch pageOk s old).1.isAnimating = false := by
  simp [rollbackCatch]

/-- With the pre-transition page in range, the document loaded and the
collaborators succeeding on in-range pages, the rollback tail resolves:
currentPage is back at the old page, isAnimating is cleared, the old
spread is displayed again and the rollback re-render fires one
notification for the old page. -/
theorem rollbackCatch_ok (pageOk : Int → Bool) (s : ViewerState) (old : Int)
    (hL : s.pdfLoaded = true) (h1 : 1 ≤ old) (h2 : old ≤ s.totalPages)
    (hok : ∀ n, 1 ≤ n → n ≤ s.totalPages → pageOk n = true) :
    ∃ c, rollbackCatch pageOk s old =
      ({ s with
          currentPage := old,
          isAnimating := false,
          cache := c,
          displayedSpread := renderSpread old s.totalPages,
          events := s.events ++ [(old, s.totalPages)] }, true) := by
  obtain ⟨c, hc⟩ := renderSpreadNav_ok pageOk { s with currentPage := old } hL h1 h2 hok
  refine ⟨c, ?_⟩
  simp only [rollbackCatch, hc]

/-- Symbolic execution of the animated branch of goToPage under a passed
guard: either the flip ran (animOk = true) and the transition committed
to the target page with exactly one notification, or some step threw
and the call ended in the rollback tail at the pre-transition page. -/
theorem goToPage_animate_split (pageOk : Int → Bool) (s : ViewerState) (page : Int) (k : Bool)
    (hL : s.pdfLoaded = true) (hp1 : 1 ≤ page) (hp2 : page ≤ s.totalPages)
    (hne : page ≠ s.currentPage) (hanim : s.isAnimating = false)
    (hok : ∀ n, 1 ≤ n → n ≤ s.totalPages → pageOk n = true) :
    (k = true ∧ ∃ c, goToPage pageOk s page true true k =
      ({ s with
          currentPage := page,
          isAnimating := false,
          displayedSpread := renderSpread page s.totalPages,
          cache := c,
          events := s.events ++ [(page, s.totalPages)] }, true)) ∨
    (∃ X : ViewerState, goToPage pageOk s page true true k =
        rollbackCatch pageOk X s.currentPage ∧
      X.pdfLoaded = s.pdfLoaded ∧ X.totalPages = s.totalPages ∧
      X.currentZoom = s.currentZoom ∧ X.events = s.events) := by
  have hguard :
      ¬(page < 1 ∨ s.totalPages < page ∨ page = s.currentPage ∨ s.isAnimating = true) := by
    simp only [not_or]
    refine ⟨by omega, by omega, hne, ?_⟩
    rw [hanim]; simp
  simp only [goToPage]
  rw [if_neg hguard, if_neg (by simp)]
  generalize hC1 : (fetchSlot pageOk s.pdfLoaded s.cache s.displayedSpread.left).1 = c1
  generalize hB1 : (fetchSlot pageOk s.pdfLoaded s.cache s.displayedSpread.left).2 = b1
  cases b1
  · rw [if_pos rfl]
    exact Or.inr ⟨{ s with isAnimating := true, cache := c1 }, rfl, rfl, rfl, rfl, rfl⟩
  · rw [if_neg (by simp)]
    generalize hC2 : (fetchSlot pageOk s.pdfLoaded c1 s.displayedSpread.right).1 = c2
    generalize hB2 : (fetchSlot pageOk s.pdfLoaded c1 s.displayedSpread.right).2 = b2
    cases b2
    · rw [if_pos rfl]
      exact Or.inr ⟨{ s with isAnimating := true, cache := c2 }, rfl, rfl, rfl, rfl, rfl⟩
    · rw [if_neg (by simp)]
      generalize hC3 :
        (fetchSlot pageOk s.pdfLoaded c2 (getSpreadForPage page s.totalPages).left).1 = c3
      generalize hB3 :
        (fetchSlot pageOk s.pdfLoaded c2 (getSpreadForPage page s.totalPages).left).2 = b3
      cases b3
      · rw [if_pos rfl]
        exact Or.inr ⟨{ s with isAnimating := true, cache := c3 }, rfl, rfl, rfl, rfl, rfl⟩
      · rw [if_neg (by simp)]
        generalize hC4 :
          (fetchSlot pageOk s.pdfLoaded c3 (getSpreadForPage page s.totalPages).right).1 = c4
        generalize hB4 :
          (fetchSlot pageOk s.pdfLoaded c3 (getSpreadForPage page s.totalPages).right).2 = b4
        cases b4
        · rw [if_pos rfl]
          exact Or.inr ⟨{ s with isAnimating := true, cache := c4 }, rfl, rfl, rfl, rfl, rfl⟩
        · rw [if_neg (by simp)]
          cases k
          · rw [if_pos rfl]
            exact Or.inr ⟨{ s with isAnimating := true, cache := c4 }, rfl, rfl, rfl, rfl, rfl⟩
          · rw [if_neg (by simp)]
            obtain ⟨c, hc⟩ := renderSpreadNav_ok pageOk
              { s with isAnimating := true, currentPage := page, cache := c4 } hL hp1 hp2 hok
            rw [hc, if_neg (by simp)]
            exact Or.inl ⟨rfl, c, rfl⟩


/-- The page-provider model used by concrete scenarios: every page of a
T-page document loads and rasterizes. -/
def pageOkTo (T : Int) : Int → Bool := fun n => decide (1 ≤ n ∧ n ≤ T)

/-- A loaded viewer at page cp of a T-page document, idle, with the
spread of cp displayed, an empty cache and no notifications yet. -/
def sampleState (cp T : Int) : ViewerState :=
  { pdfLoaded := true, currentPage := cp, totalPages := T, currentZoom := 1,
    isAnimating := false, displayedSpread := renderSpread cp T, cache := [],
    events := [] }


/-- An opaque rasterized page as produced by PageRenderer: its identity
records the page number and the scale it was rasterized at. -/
structure Raster where
  page : Int
  scale : ℚ
deriving DecidableEq, Repr

/-- The Map.get of PageRenderer.renderCache: the first entry stored
under the given page number. -/
def cacheGet (cache : List (Int × Raster)) (p : Int) : Option Raster :=
  match cache with
  | [] => none
  | (k, v) :: rest => if k = p then some v else cacheGet rest p

/-- Embedding of PageRenderer.renderPage(page, scale): a renderCache hit
returns the cached canvas immediately, ignoring the scale argument; a
miss rasterizes at the requested scale (canvasOk models whether a 2d
context is available and the pdf.js render call succeeds; a RenderError
is the none result, with nothing substituted for it) and stores the new
raster keyed by the page number only.  The extra Bool records whether a
new rasterization was performed. -/
def renderPage (canvasOk : Int → Bool) (cache : List (Int × Raster)) (p : Int)
    (scale : ℚ) : Option (Raster × List (Int × Raster) × Bool) :=
  match cacheGet cache p with
  | some r => some (r, cache, false)
  | none =>
    if canvasOk p = true then some (⟨p, scale⟩, cache ++ [(p, ⟨p, scale⟩)], true)
    else none

/-- Appending a fresh entry for a previously absent page makes it the
one found by cacheGet. -/
theorem cacheGet_append_self (cache : List (Int × Raster)) (p : Int) (r : Raster)
    (h : cacheGet cache p = none) : cacheGet (cache ++ [(p, r)]) p = some r := by
  induction cache with
  | nil => simp [cacheGet]
  | cons head tail ih =>
    obtain ⟨k, v⟩ := head
    by_cases hk : k = p
    · simp only [cacheGet] at h
      rw [if_pos hk] at h
      exact absurd h (by simp)
    · simp only [List.cons_append, cacheGet] at h ⊢
      rw [if_neg hk] at h ⊢
      exact ih h

/-- The page-provider model for the C7 scenario: a 10-page document
whose page 4 fails to rasterize. -/
def pageOkBad4 : Int → Bool := fun n => decide (1 ≤ n ∧ n ≤ 10 ∧ n ≠ 4)

end PrettyPDF

open PrettyPDF

/-- C1: the spec claims that for all totalPages ≥ 1 and page ∈
[1, totalPages] the resolver returns in-range slots with an (even, odd)
pair when both are present; this fails already at page 1 of a one-page
document, where getSpreadForPage returns (1, 2): the right slot 2 is out
of range and the left slot 1 is odd. -/
theorem C1_counterexample :
    getSpreadForPage 1 1 = ⟨some 1, some 2⟩ ∧
    ¬ specSpreadInvariant (getSpreadForPage 1 1) 1 := by
  decide

/-- C1 (amended): for totalPages ≥ 1 and page ∈ [1, totalPages],
getSpreadForPage always yields a present left slot within
[1, totalPages]; when both slots are present, left + 1 = right, the left
slot is even except at page 1 (where the pair is (1, 2)), and the right
slot is ≥ 1 but exceeds totalPages exactly when page = 1 with
totalPages = 1, or page is even and equals totalPages. -/
theorem C1_spread_slots (totalPages page : Int)
    (hT : 1 ≤ totalPages) (h1 : 1 ≤ page) (h2 : page ≤ totalPages) :
    (∃ l, (getSpreadForPage page totalPages).left = some l ∧ 1 ≤ l ∧ l ≤ totalPages) ∧
    (∀ l r, (getSpreadForPage page totalPages).left = some l →
      (getSpreadForPage page totalPages).right = some r → l + 1 = r) ∧
    (∀ l r, (getSpreadForPage page totalPages).left = some l →
      (getSpreadForPage page totalPages).right = some r → page ≠ 1 → l % 2 = 0) ∧
    (∀ r, (getSpreadForPage page totalPages).right = some r →
      1 ≤ r ∧ (r ≤ totalPages ∨ (page = 1 ∧ totalPages = 1) ∨
        (page = totalPages ∧ page % 2 = 0))) := by
  have hmp := jsMod_two_eq_emod page (by omega)
  have hmT := jsMod_two_eq_emod totalPages (by omega)
  have hp2 := Int.emod_two_eq page
  have hT2 := Int.emod_two_eq totalPages
  unfold getSpreadForPage
  by_cases hc1 : page = 1
  · subst hc1
    rw [if_pos rfl]
    refine ⟨⟨1, rfl, by omega, by omega⟩, ?_, ?_, ?_⟩
    · intro l r hl hr
      injection hl with hl
      injection hr with hr
      omega
    · intro l r hl hr hne
      exact absurd rfl hne
    · intro r hr
      injection hr with hr
      by_cases hTone : totalPages = 1
      · exact ⟨by omega, Or.inr (Or.inl ⟨rfl, hTone⟩)⟩
      · exact ⟨by omega, Or.inl (by omega)⟩
  · simp only [if_neg hc1]
    by_cases hc2 : page = totalPages ∧ jsMod totalPages 2 = 1
    · simp only [if_pos hc2]
      refine ⟨⟨totalPages, rfl, by omega, by omega⟩, ?_, ?_, ?_⟩
      · intro l r _ hr; exact Option.noConfusion hr
      · intro l r _ hr; exact Option.noConfusion hr
      · intro r hr; exact Option.noConfusion hr
    · simp only [if_neg hc2]
      by_cases hc3 : jsMod page 2 = 0
      · simp only [if_pos hc3]
        rw [hmp] at hc3
        rw [hmT] at hc2
        refine ⟨⟨page, rfl, by omega, by omega⟩, ?_, ?_, ?_⟩
        · intro l r hl hr
          injection hl with hl
          injection hr with hr
          omega
        · intro l r hl hr _
          injection hl with hl
          omega
        · intro r hr
          injection hr with hr
          by_cases hlast : page = totalPages
          · exact ⟨by omega, Or.inr (Or.inr ⟨hlast, by omega⟩)⟩
          · exact ⟨by omega, Or.inl (by omega)⟩
      · simp only [if_neg hc3]
        rw [hmp] at hc3
        rw [hmT] at hc2
        refine ⟨⟨page - 1, rfl, by omega, by omega⟩, ?_, ?_, ?_⟩
        · intro l r hl hr
          injection hl with hl
          injection hr with hr
          omega
        · intro l r hl hr _
          injection hl with hl
          omega
        · intro r hr
          injection hr with hr
          exact ⟨by omega, Or.inl (by omega)⟩

/-- C1 witness: the amended statement holds at page 4 of a 10-page
document. -/
theorem C1_spread_slots_witness :
    (∃ l, (getSpreadForPage 4 10).left = some l ∧ 1 ≤ l ∧ l ≤ 10) ∧
    (∀ l r, (getSpreadForPage 4 10).left = some l →
      (getSpreadForPage 4 10).right = some r → l + 1 = r) ∧
    (∀ l r, (getSpreadForPage 4 10).left = some l →
      (getSpreadForPage 4 10).right = some r → (4 : Int) ≠ 1 → l % 2 = 0) ∧
    (∀ r, (getSpreadForPage 4 10).right = some r →
      1 ≤ r ∧ (r ≤ 10 ∨ ((4 : Int) = 1 ∧ (10 : Int) = 1) ∨
        ((4 : Int) = 10 ∧ (4 : Int) % 2 = 0))) :=
  C1_spread_slots 10 4 (by decide) (by decide) (by decide)

/-- C2: the spec claims resolve(1, N) is the right-only cover spread
(null, 1); the code returns (1, 2) instead, already for N = 2; and for
the odd count N = 1 the page-1 branch wins, so resolve(1, 1) is not the
left-only back-cover spread (1, null) either. -/
theorem C2_counterexample :
    getSpreadForPage 1 2 = ⟨some 1, some 2⟩ ∧
    getSpreadForPage 1 2 ≠ ⟨none, some 1⟩ ∧
    getSpreadForPage 1 1 ≠ ⟨some 1, none⟩ := by
  decide

/-- C2 (amended): resolving page 1 through getSpreadForPage yields the
pair (1, 2) for every totalPages ≥ 1 (the left-only displayed cover
spread (1, null) comes from renderCurrentSpread instead); for odd
totalPages ≥ 3, resolving the last page yields the left-only spread
(totalPages, null); at totalPages = 1 the page-1 branch wins, so the
back-cover rule only holds from 3 on. -/
theorem C2_cover_boundary :
    (∀ N : Int, 1 ≤ N → getSpreadForPage 1 N = ⟨some 1, some 2⟩) ∧
    (∀ N : Int, renderSpread 1 N = ⟨some 1, none⟩) ∧
    (∀ N : Int, 3 ≤ N → jsMod N 2 = 1 → getSpreadForPage N N = ⟨some N, none⟩) ∧
    (∀ N : Int, 3 ≤ N → jsMod N 2 = 1 → renderSpread N N = ⟨some N, none⟩) := by
  refine ⟨?_, ?_, ?_, ?_⟩
  · intro N _
    simp [getSpreadForPage]
  · intro N
    simp [renderSpread]
  · intro N hN hodd
    unfold getSpreadForPage
    rw [if_neg (by omega), if_pos ⟨rfl, hodd⟩]
  · intro N hN hodd
    unfold renderSpread
    rw [if_neg (by omega), if_pos ⟨hodd, rfl⟩]

/-- C2 witness: the amended statement holds at N = 5. -/
theorem C2_cover_boundary_witness :
    getSpreadForPage 1 5 = ⟨some 1, some 2⟩ ∧
    renderSpread 1 5 = ⟨some 1, none⟩ ∧
    getSpreadForPage 5 5 = ⟨some 5, none⟩ ∧
    renderSpread 5 5 = ⟨some 5, none⟩ :=
  ⟨C2_cover_boundary.1 5 (by decide), C2_cover_boundary.2.1 5,
   C2_cover_boundary.2.2.1 5 (by decide) (by decide),
   C2_cover_boundary.2.2.2 5 (by decide) (by decide)⟩


/-- C3: goToPage is a no-op when the page is out of range, equals
currentPage, or a transition is in flight; in the no-op cases the state
(including currentPage, isAnimating and the notification log) is
unchanged; any goToPage issued while isAnimating is true (the state
strictly between transition start and completion) is dropped, so no two
transitions overlap; and a transition that commits to its target fires
exactly one page-changed notification. -/
theorem C3_goToPage_single_flight (pageOk : Int → Bool) (s : ViewerState) (page : Int)
    (animate useThreeJS animOk : Bool) :
    ((page < 1 ∨ s.totalPages < page ∨ page = s.currentPage ∨ s.isAnimating = true) →
      goToPage pageOk s page animate useThreeJS animOk = (s, true)) ∧
    (∀ (p2 : Int) (a2 u2 k2 : Bool),
      goToPage pageOk { s with isAnimating := true } p2 a2 u2 k2 =
        ({ s with isAnimating := true }, true)) ∧
    (s.pdfLoaded = true → 1 ≤ page → page ≤ s.totalPages → page ≠ s.currentPage →
      s.isAnimating = false → (∀ n, 1 ≤ n → n ≤ s.totalPages → pageOk n = true) →
      (goToPage pageOk s page animate useThreeJS animOk).1.currentPage = page →
      (goToPage pageOk s page animate useThreeJS animOk).1.events =
        s.events ++ [(page, s.totalPages)]) := by
  refine ⟨?_, ?_, ?_⟩
  · intro h
    simp only [goToPage]
    rw [if_pos h]
  · intro p2 a2 u2 k2
    simp only [goToPage]
    rw [if_pos (Or.inr (Or.inr (Or.inr (by simp))))]
  · intro hL hp1 hp2 hne hanim hok hcp
    have hguard :
        ¬(page < 1 ∨ s.totalPages < page ∨ page = s.currentPage ∨ s.isAnimating = true) := by
      simp only [not_or]
      refine ⟨by omega, by omega, hne, ?_⟩
      rw [hanim]; simp
    by_cases hA : animate = false ∨ useThreeJS = false
    · obtain ⟨c, hc⟩ := renderSpreadNav_ok pageOk { s with currentPage := page } hL hp1 hp2 hok
      simp only [goToPage]
      rw [if_neg hguard, if_pos hA, hc]
    · have ha : animate = true := by
        cases animate
        · exact absurd (Or.inl rfl) hA
        · rfl
      have hu : useThreeJS = true := by
        cases useThreeJS
        · exact absurd (Or.inr rfl) hA
        · rfl
      subst ha
      subst hu
      rcases goToPage_animate_split pageOk s page animOk hL hp1 hp2 hne hanim hok with
        ⟨hk, c, hEq⟩ | ⟨X, hEq, hXL, hXT, hXZ, hXE⟩
      · rw [hEq]
      · rw [hEq, rollbackCatch_currentPage] at hcp
        exact absurd hcp.symm hne

/-- C3 witness: in a 10-page document at page 1, an animated goToPage(4)
commits and fires exactly the notification (4, 10). -/
theorem C3_goToPage_single_flight_witness :
    (goToPage (pageOkTo 10) (sampleState 1 10) 4 true true true).1.events = [(4, 10)] := by
  have h := (C3_goToPage_single_flight (pageOkTo 10) (sampleState 1 10) 4 true true true).2.2
    rfl (by decide) (by decide) (by decide) rfl
    (fun n h1 h2 => decide_eq_true ⟨h1, h2⟩) (by decide)
  simpa using h

/-- C4: when the animation driver rejects (animOk = false) during an
animated goToPage from an in-range page, the call still resolves (the
error is not rethrown), currentPage keeps its pre-transition value,
isAnimating ends false, and the pre-transition spread is displayed
again. -/
theorem C4_rollback (pageOk : Int → Bool) (s : ViewerState) (page : Int)
    (hL : s.pdfLoaded = true) (hp1 : 1 ≤ page) (hp2 : page ≤ s.totalPages)
    (hne : page ≠ s.currentPage) (hanim : s.isAnimating = false)
    (hc1 : 1 ≤ s.currentPage) (hc2 : s.currentPage ≤ s.totalPages)
    (hok : ∀ n, 1 ≤ n → n ≤ s.totalPages → pageOk n = true) :
    (goToPage pageOk s page true true false).2 = true ∧
    (goToPage pageOk s page true true false).1.currentPage = s.currentPage ∧
    (goToPage pageOk s page true true false).1.isAnimating = false ∧
    (goToPage pageOk s page true true false).1.displayedSpread =
      renderSpread s.currentPage s.totalPages := by
  rcases goToPage_animate_split pageOk s page false hL hp1 hp2 hne hanim hok with
    ⟨hk, _⟩ | ⟨X, hEq, hXL, hXT, hXZ, hXE⟩
  · exact absurd hk (by simp)
  · have hokX : ∀ n, 1 ≤ n → n ≤ X.totalPages → pageOk n = true := by
      rw [hXT]; exact hok
    obtain ⟨c, hc⟩ := rollbackCatch_ok pageOk X s.currentPage (by rw [hXL]; exact hL)
      hc1 (by rw [hXT]; exact hc2) hokX
    rw [hEq, hc]
    refine ⟨rfl, rfl, rfl, ?_⟩
    show renderSpread s.currentPage X.totalPages = renderSpread s.currentPage s.totalPages
    rw [hXT]

/-- C4 witness: at page 2 of a 10-page document, an animated goToPage(4)
whose flip rejects resolves with currentPage still 2, isAnimating false
and the old spread displayed. -/
theorem C4_rollback_witness :
    (goToPage (pageOkTo 10) (sampleState 2 10) 4 true true false).2 = true ∧
    (goToPage (pageOkTo 10) (sampleState 2 10) 4 true true false).1.currentPage = 2 ∧
    (goToPage (pageOkTo 10) (sampleState 2 10) 4 true true false).1.isAnimating = false ∧
    (goToPage (pageOkTo 10) (sampleState 2 10) 4 true true false).1.displayedSpread =
      renderSpread 2 10 :=
  C4_rollback (pageOkTo 10) (sampleState 2 10) 4 rfl (by decide) (by decide) (by decide)
    rfl (by decide) (by decide) (fun n h1 h2 => decide_eq_true ⟨h1, h2⟩)

/-- C5: the next/previous target arithmetic of the source: from page 1
next targets 2; from an even page, page+2; from an odd page at least 3,
page+1; from page 2 or 3 previous targets 1; from an even page at least
4, page-2; from an odd page at least 5, page-3; in-range requests
delegate to an animated goToPage at the target, and a request whose
target falls outside [1, totalPages] never reaches goToPage and leaves
the state unchanged; in a 10-page document next from 2 targets 4,
previous from 9 targets 6, and nextPage at page 10 is a no-op. -/
theorem C5_nav_arithmetic :
    (nextTarget 1 = 2) ∧
    (∀ p : Int, jsMod p 2 = 0 → nextTarget p = p + 2) ∧
    (∀ p : Int, 3 ≤ p → jsMod p 2 = 1 → nextTarget p = p + 1) ∧
    (prevTarget 2 = 1) ∧ (prevTarget 3 = 1) ∧
    (∀ p : Int, 4 ≤ p → jsMod p 2 = 0 → prevTarget p = p - 2) ∧
    (∀ p : Int, 5 ≤ p → jsMod p 2 = 1 → prevTarget p = p - 3) ∧
    (∀ (pageOk : Int → Bool) (s : ViewerState) (u k : Bool),
      s.currentPage < s.totalPages → nextTarget s.currentPage ≤ s.totalPages →
      nextPage pageOk s u k = goToPage pageOk s (nextTarget s.currentPage) true u k) ∧
    (∀ (pageOk : Int → Bool) (s : ViewerState) (u k : Bool),
      1 < s.currentPage → 1 ≤ prevTarget s.currentPage →
      previousPage pageOk s u k = goToPage pageOk s (prevTarget s.currentPage) true u k) ∧
    (∀ (pageOk : Int → Bool) (s : ViewerState) (u k : Bool),
      s.totalPages < nextTarget s.currentPage → nextPage pageOk s u k = (s, true)) ∧
    (∀ (pageOk : Int → Bool) (s : ViewerState) (u k : Bool),
      prevTarget s.currentPage < 1 → previousPage pageOk s u k = (s, true)) ∧
    (nextTarget 2 = 4) ∧ (prevTarget 9 = 6) ∧
    (∀ (pageOk : Int → Bool) (u k : Bool),
      nextPage pageOk (sampleState 10 10) u k = (sampleState 10 10, true)) := by
  refine ⟨by decide, ?_, ?_, by decide, by decide, ?_, ?_, ?_, ?_, ?_, ?_, by decide,
    by decide, ?_⟩
  · intro p hpar
    have hne1 : p ≠ 1 := by rintro rfl; exact absurd hpar (by decide)
    unfold nextTarget
    rw [if_neg hne1, if_pos hpar]
  · intro p hp hpar
    have hne1 : p ≠ 1 := by omega
    unfold nextTarget
    rw [if_neg hne1, if_neg (by rw [hpar]; decide)]
  · intro p hp hpar
    unfold prevTarget
    rw [if_neg (by omega), if_pos hpar]
  · intro p hp hpar
    unfold prevTarget
    rw [if_neg (by omega), if_neg (by rw [hpar]; decide)]
  · intro pageOk s u k h1 h2
    unfold nextPage
    rw [if_neg (by omega), if_pos h2]
  · intro pageOk s u k h1 h2
    unfold previousPage
    rw [if_neg (by omega), if_pos h2]
  · intro pageOk s u k h
    unfold nextPage
    by_cases h0 : s.totalPages ≤ s.currentPage
    · rw [if_pos h0]
    · rw [if_neg h0, if_neg (by omega)]
  · intro pageOk s u k h
    unfold previousPage
    by_cases h0 : s.currentPage ≤ 1
    · rw [if_pos h0]
    · rw [if_neg h0, if_neg (by omega)]
  · intro pageOk u k
    unfold nextPage
    rw [if_pos (by decide)]

/-- C5 witness: the target arithmetic and delegation at concrete pages
of a 10-page document. -/
theorem C5_nav_arithmetic_witness :
    nextTarget 6 = 6 + 2 ∧ nextTarget 7 = 7 + 1 ∧
    prevTarget 8 = 8 - 2 ∧ prevTarget 9 = 9 - 3 ∧
    nextPage (pageOkTo 10) (sampleState 8 10) true true =
      goToPage (pageOkTo 10) (sampleState 8 10)
        (nextTarget (sampleState 8 10).currentPage) true true true ∧
    nextPage (pageOkTo 10) (sampleState 10 10) true true = (sampleState 10 10, true) :=
  ⟨C5_nav_arithmetic.2.1 6 (by decide),
   C5_nav_arithmetic.2.2.1 7 (by decide) (by decide),
   C5_nav_arithmetic.2.2.2.2.2.1 8 (by decide) (by decide),
   C5_nav_arithmetic.2.2.2.2.2.2.1 9 (by decide) (by decide),
   C5_nav_arithmetic.2.2.2.2.2.2.2.1 (pageOkTo 10) (sampleState 8 10) true true
     (by decide) (by decide),
   C5_nav_arithmetic.2.2.2.2.2.2.2.2.2.2.2.2.2 (pageOkTo 10) true true⟩

/-- C6: the claim says load clamps the configured initial page into
[1, totalPages]; the code assigns it unclamped, and with initialPage 11
on a 10-page document the load even succeeds (the spread of page 11 is
(10, 11) and only page 10 is fetched), leaving currentPage = 11 outside
[1, 10] (the claimed clamped value would be 10). -/
theorem C6_counterexample :
    (load (pageOkTo 10) true 10 ⟨11, 1, true⟩ initState).2 = true ∧
    (load (pageOkTo 10) true 10 ⟨11, 1, true⟩ initState).1.currentPage = 11 ∧
    (load (pageOkTo 10) true 10 ⟨11, 1, true⟩ initState).1.totalPages = 10 ∧
    ¬((load (pageOkTo 10) true 10 ⟨11, 1, true⟩ initState).1.currentPage ≤
        (load (pageOkTo 10) true 10 ⟨11, 1, true⟩ initState).1.totalPages) := by
  decide

/-- C6 (amended): after a load whose parse succeeds, currentPage equals
the configured initial page exactly as given, with no clamping, and
totalPages equals the parsed page count; currentPage therefore lies in
[1, totalPages] only when the configured value does. -/
theorem C6_load_initialPage_unclamped :
    ∀ (pageOk : Int → Bool) (T : Int) (opts : ViewerOptions) (s : ViewerState),
      (load pageOk true T opts s).1.currentPage = opts.initialPage ∧
      (load pageOk true T opts s).1.totalPages = T := by
  intro pageOk T opts s
  unfold load
  rw [if_neg (by simp)]
  exact ⟨renderSpreadNav_currentPage pageOk _, renderSpreadNav_totalPages pageOk _⟩

/-- C9: load never touches the zoom level: currentZoom is whatever it
was before the call (1.0 from construction), for every configured
initialZoom; in particular loading with initialZoom 2.0 leaves the zoom
at 1.0, contradicting the documented option. -/
theorem C9_load_ignores_initialZoom :
    (∀ (pageOk : Int → Bool) (parseOk : Bool) (T : Int) (opts : ViewerOptions)
      (s : ViewerState),
      (load pageOk parseOk T opts s).1.currentZoom = s.currentZoom) ∧
    initState.currentZoom = 1 ∧
    (load (pageOkTo 10) true 10 ⟨1, 2, true⟩ initState).2 = true ∧
    (load (pageOkTo 10) true 10 ⟨1, 2, true⟩ initState).1.currentZoom = 1 := by
  refine ⟨?_, rfl, ?_, ?_⟩
  · intro pageOk parseOk T opts s
    unfold load
    by_cases hp : parseOk = false
    · rw [if_pos hp]
    · rw [if_neg hp]
      exact renderSpreadNav_currentZoom pageOk _
  · decide
  · decide


/-- C8: the zoom level is always clamped to [0.5, 3.0]: setZoom(10)
stores 3.0 and setZoom(-5) stores 0.5; zoomIn and zoomOut move the level
by +0.2 and -0.2 with the result clamped, so zoomIn from 2.9 stores 3.0
rather than 3.1. -/
theorem C8_zoom_clamped :
    (∀ (s : ViewerState) (level : ℚ),
      1/2 ≤ (setZoom s level).currentZoom ∧ (setZoom s level).currentZoom ≤ 3) ∧
    (∀ s : ViewerState, (setZoom s 10).currentZoom = 3) ∧
    (∀ s : ViewerState, (setZoom s (-5)).currentZoom = 1/2) ∧
    (∀ s : ViewerState, (zoomIn s).currentZoom = max (1/2) (min 3 (s.currentZoom + 1/5))) ∧
    (∀ s : ViewerState, (zoomOut s).currentZoom = max (1/2) (min 3 (s.currentZoom - 1/5))) ∧
    ((zoomIn { initState with currentZoom := 29/10 }).currentZoom = 3) := by
  refine ⟨?_, ?_, ?_, ?_, ?_, ?_⟩
  · intro s level
    constructor
    · show (1 : ℚ)/2 ≤ max (1/2) (min 3 level)
      exact le_max_left _ _
    · show max (1/2) (min 3 level) ≤ (3 : ℚ)
      exact max_le (by norm_num) (min_le_left _ _)
  · intro s
    show max (1/2) (min 3 (10 : ℚ)) = 3
    rw [min_eq_left (by norm_num), max_eq_right (by norm_num)]
  · intro s
    show max (1/2) (min 3 (-5 : ℚ)) = 1/2
    rw [min_eq_right (by norm_num), max_eq_left (by norm_num)]
  · intro s
    show max (1/2) (min 3 (min (s.currentZoom + 1/5) 3)) =
      max (1/2) (min 3 (s.currentZoom + 1/5))
    rcases le_total (s.currentZoom + 1/5) 3 with h | h
    · rw [min_eq_left h]
    · rw [min_eq_right h, min_self, min_eq_left h]
  · intro s
    show max (1/2) (min 3 (max (s.currentZoom - 1/5) (1/2))) =
      max (1/2) (min 3 (s.currentZoom - 1/5))
    rcases le_total (s.currentZoom - 1/5) (1/2 : ℚ) with h | h
    · rw [max_eq_right h, min_eq_right (by norm_num), max_self,
        min_eq_right (le_trans h (by norm_num)), max_eq_left h]
    · rw [max_eq_left h]
  · show max (1/2) (min 3 (min ((29 : ℚ)/10 + 1/5) 3)) = 3
    norm_num

/-- C10: the render cache is keyed by page number only: once a render of
page p at scale s1 has completed, a later renderPage request for p at
any scale s2 returns the identical raster produced at s1, leaves the
cache unchanged and performs no new rasterization. -/
theorem C10_renderPage_cache_ignores_scale (canvasOk : Int → Bool)
    (cache : List (Int × Raster)) (p : Int) (s1 s2 : ℚ) (r : Raster)
    (c : List (Int × Raster)) (b : Bool)
    (h : renderPage canvasOk cache p s1 = some (r, c, b)) :
    renderPage canvasOk c p s2 = some (r, c, false) := by
  unfold renderPage at h ⊢
  cases hl : cacheGet cache p with
  | some r0 =>
    rw [hl] at h
    simp only [Option.some.injEq, Prod.mk.injEq] at h
    obtain ⟨h1, h2, h3⟩ := h
    subst h1
    subst h2
    rw [hl]
  | none =>
    rw [hl] at h
    by_cases hcv : canvasOk p = true
    · rw [if_pos hcv] at h
      simp only [Option.some.injEq, Prod.mk.injEq] at h
      obtain ⟨h1, h2, h3⟩ := h
      subst h1
      subst h2
      rw [cacheGet_append_self cache p _ hl]
    · rw [if_neg hcv] at h
      exact absurd h (by simp)

/-- C10 witness: a raster of page 1 produced at scale 2 is returned
unchanged by a later request at scale 4, with no new rasterization. -/
theorem C10_renderPage_cache_ignores_scale_witness :
    renderPage (fun _ => true) [(1, ⟨1, 2⟩)] 1 4 = some (⟨1, 2⟩, [(1, ⟨1, 2⟩)], false) :=
  C10_renderPage_cache_ignores_scale (fun _ => true) [] 1 2 4 ⟨1, 2⟩ [(1, ⟨1, 2⟩)] true
    (by decide)

/-- C7: the claim says a failing rasterization is replaced by a rendered
error-placeholder raster and the failure is not propagated; in the code
there is no placeholder path at all: at page 4 of a 10-page document
whose rasterization fails, getOrRenderPage rejects with no raster cached,
and PageRenderer.renderPage returns the RenderError (none), producing no
raster whatsoever. -/
theorem C7_counterexample :
    getOrRenderPage pageOkBad4 true [] 4 = ([], false) ∧
    renderPage (fun _ => false) [] 4 2 = none := by
  decide

/-- C7 (amended): a failing rasterization is not replaced by a
placeholder: getOrRenderPage propagates the failure and caches nothing,
and PageRenderer.renderPage surfaces the RenderError itself; an animated
transition whose target spread contains the bad page catches the error
and rolls back to the pre-transition page with the viewer responsive, so
a later navigation among the healthy pages still succeeds (the
non-animated path, by contrast, would propagate the rejection to its
caller). -/
theorem C7_render_failure_no_placeholder :
    (∀ (pageOk : Int → Bool) (pdfLoaded : Bool) (cache : List Int) (n : Int),
      n ∉ cache → pageOk n = false →
      getOrRenderPage pageOk pdfLoaded cache n = (cache, false)) ∧
    (∀ (canvasOk : Int → Bool) (cache : List (Int × Raster)) (p : Int) (scale : ℚ),
      cacheGet cache p = none → canvasOk p = false →
      renderPage canvasOk cache p scale = none) ∧
    ((goToPage pageOkBad4 (sampleState 1 10) 4 true true true).2 = true ∧
      (goToPage pageOkBad4 (sampleState 1 10) 4 true true true).1.currentPage = 1 ∧
      (goToPage pageOkBad4 (sampleState 1 10) 4 true true true).1.isAnimating = false ∧
      (goToPage pageOkBad4
        (goToPage pageOkBad4 (sampleState 1 10) 4 true true true).1
        6 true true true).1.currentPage = 6) := by
  refine ⟨?_, ?_, by decide⟩
  · intro pageOk pdfLoaded cache n h1 h2
    unfold getOrRenderPage
    rw [if_neg h1, if_neg (by simp [h2])]
  · intro canvasOk cache p scale h1 h2
    unfold renderPage
    rw [h1]
    rw [if_neg (by simp [h2])]

/-- C7 witness: the failure propagation at concrete inputs: page 4 of
the bad-page-4 document misses a non-empty cache and rejects; a document
with no 2d context support returns the RenderError for page 3. -/
theorem C7_render_failure_no_placeholder_witness :
    getOrRenderPage pageOkBad4 true [1] 4 = ([1], false) ∧
    renderPage (fun _ => false) [] 3 2 = none :=
  ⟨C7_render_failure_no_placeholder.1 pageOkBad4 true [1] 4 (by decide) (by decide),
   C7_render_failure_no_placeholder.2.1 (fun _ => false) [] 3 2 rfl rfl⟩
